import Mathlib

/-!
Verification of the issue-reporter dialog slice
(src/vs/code/electron-browser/issue/issueReporterMain.ts).

The file shallowly embeds the model-relevant logic of `IssueReporter`:
the category-to-visible-blocks policy (`renderBlocks`), the theme-only
extension grouping (`handleExtensionData`), input validation and issue
creation (`validateInput` / `validateInputs` / `createIssue`), the
extension-table rendering (`updateExtensionTable`), the initial model
data built in the constructor, and the category / include-flag event
handlers from `setEventHandlers`.  DOM reads and writes are represented
by an explicit `Dom` record and an `Effects` record threaded through the
functions; the `IssueReporterModel` class itself lives in a file outside
this slice, so its state shape, shallow-merge `update` and `serialize`
are modelled from the specification and marked as such.
-/

namespace IssueReporterSpec

/-- The issue categories, from the `IssueType` enum used by
`issueReporterMain.ts` (Bug, PerformanceIssue, FeatureRequest). -/
inductive IssueType where
  | Bug
  | PerformanceIssue
  | FeatureRequest
deriving DecidableEq, Repr

/-- Version header data: the `versionInfo` object built in the
`IssueReporter` constructor (`vscodeVersion` and `os` strings). -/
structure VersionInfo where
  vscodeVersion : String
  os : String
deriving DecidableEq, Repr

/-- One row of process info, per the fields read by `updateProcessInfo`
(`pid`, `cpu`, `memory`, `name`).  The numeric columns are kept as the
strings they are rendered as. -/
structure ProcessItem where
  pid : Nat
  cpu : String
  memory : String
  name : String
deriving DecidableEq, Repr

/-- The slice of an extension manifest read by `handleExtensionData` and
`updateExtensionTable`: `name`, `publisher`, `version`, the optional
`activationEvents` array, and the optional `contributes` object
represented by its ordered key list (only the keys are inspected,
via `Object.keys`). -/
structure ExtensionManifest where
  name : String
  publisher : String
  version : String
  activationEvents : Option (List String)
  contributes : Option (List String)
deriving DecidableEq, Repr

/-- A delivered extension (`ILocalExtension`): only its manifest is read. -/
structure ILocalExtension where
  manifest : ExtensionManifest
deriving DecidableEq, Repr

/-- Modelled from the spec: the ReportState aggregate owned by
`IssueReporterModel` (the class lives in issueReporterModel.ts, outside
this slice).  Fields follow the spec's state shape and the keys this
slice passes to `update`: the category, the four include flags, the
write-once version info, user text, and the optional diagnostic facts
delivered asynchronously.  `enabledNonThemeExtesions` and
`numberOfThemeExtesions` keep the source's spelling. -/
structure ReportState where
  issueType : IssueType
  includeSystemInfo : Bool
  includeProcessInfo : Bool
  includeWorkspaceInfo : Bool
  includeExtensions : Bool
  versionInfo : VersionInfo
  issueTitle : Option String
  issueDescription : Option String
  systemInfo : Option (List (String × String))
  processInfo : Option (List ProcessItem)
  workspaceInfo : Option String
  enabledNonThemeExtesions : Option (List ILocalExtension)
  numberOfThemeExtesions : Option Nat
deriving DecidableEq, Repr

/-- Modelled from the spec: a partial update passed to
`IssueReporterModel.update`.  An outer `none` means the key is absent
from the partial (the field is untouched); `some v` means the key is
present and replaces the prior value entirely, even when `v` itself is
the absent value for an optional field. -/
structure StatePatch where
  issueType : Option IssueType := none
  includeSystemInfo : Option Bool := none
  includeProcessInfo : Option Bool := none
  includeWorkspaceInfo : Option Bool := none
  includeExtensions : Option Bool := none
  versionInfo : Option VersionInfo := none
  issueTitle : Option (Option String) := none
  issueDescription : Option (Option String) := none
  systemInfo : Option (Option (List (String × String))) := none
  processInfo : Option (Option (List ProcessItem)) := none
  workspaceInfo : Option (Option String) := none
  enabledNonThemeExtesions : Option (Option (List ILocalExtension)) := none
  numberOfThemeExtesions : Option (Option Nat) := none
deriving DecidableEq, Repr

/-- Modelled from the spec: `IssueReporterModel.update` shallow-merge
(issueReporterModel.ts is outside this slice).  Any key present in the
partial replaces the prior value entirely; missing keys are untouched. -/
def update (s : ReportState) (p : StatePatch) : ReportState where
  issueType := p.issueType.getD s.issueType
  includeSystemInfo := p.includeSystemInfo.getD s.includeSystemInfo
  includeProcessInfo := p.includeProcessInfo.getD s.includeProcessInfo
  includeWorkspaceInfo := p.includeWorkspaceInfo.getD s.includeWorkspaceInfo
  includeExtensions := p.includeExtensions.getD s.includeExtensions
  versionInfo := p.versionInfo.getD s.versionInfo
  issueTitle := p.issueTitle.getD s.issueTitle
  issueDescription := p.issueDescription.getD s.issueDescription
  systemInfo := p.systemInfo.getD s.systemInfo
  processInfo := p.processInfo.getD s.processInfo
  workspaceInfo := p.workspaceInfo.getD s.workspaceInfo
  enabledNonThemeExtesions := p.enabledNonThemeExtesions.getD s.enabledNonThemeExtesions
  numberOfThemeExtesions := p.numberOfThemeExtesions.getD s.numberOfThemeExtesions

/-- Which of the four diagnostic blocks carry the `hidden` class removed
(`true` = shown), as toggled by `renderBlocks`. -/
structure BlockVisibility where
  systemBlock : Bool
  processBlock : Bool
  workspaceBlock : Bool
  extensionsBlock : Bool
deriving DecidableEq, Repr

/-- `IssueReporter.renderBlocks` (lines 267-305): branches on the
current `issueType` and shows or hides the system, process, workspace
and extensions blocks. -/
def renderBlocks (issueType : IssueType) : BlockVisibility :=
  if issueType = IssueType.Bug then
    { systemBlock := true, processBlock := false,
      workspaceBlock := false, extensionsBlock := true }
  else if issueType = IssueType.PerformanceIssue then
    { systemBlock := true, processBlock := true,
      workspaceBlock := true, extensionsBlock := true }
  else
    { systemBlock := false, processBlock := false,
      workspaceBlock := false, extensionsBlock := false }

/-- The `onlyTheme` test inside `handleExtensionData`: the manifest has
no `activationEvents` field (JavaScript `!` on an absent value; an
array, even empty, is truthy) and the `contributes` object has exactly
one key whose name is "themes". -/
def onlyThemeCheck (ext : ILocalExtension) : Bool :=
  let manifestKeys := (ext.manifest.contributes).getD []
  ext.manifest.activationEvents.isNone
    && manifestKeys.length == 1 && manifestKeys.getD 0 "" == "themes"

/-- The key function `handleExtensionData` passes to `groupBy`: theme-only
extensions map to the group "themes", all others to "nonThemes". -/
def extensionGroupKey (ext : ILocalExtension) : String :=
  if onlyThemeCheck ext then "themes" else "nonThemes"

/-- Whether an extension is classified theme-only by `extensionGroupKey`. -/
def isThemeOnly (ext : ILocalExtension) : Bool :=
  extensionGroupKey ext == "themes"

/-- Modelled from the spec: `collections.groupBy`
(vs/base/common/collections.ts, outside this slice) partitions the list
by key, preserving order inside each group; a key no element maps to is
absent from the result object, so destructuring it yields `undefined`
(`none` here). -/
def groupByKey (extensions : List ILocalExtension)
    (key : ILocalExtension → String) (k : String) :
    Option (List ILocalExtension) :=
  match extensions.filter (fun e => key e == k) with
  | [] => none
  | l => some l

/-- Concatenation of the strings produced for each list element, in
order; used to state what repeated `+=` inside a `forEach` builds. -/
def concatMapStr {α : Type} (f : α → String) : List α → String
  | [] => ""
  | e :: es => f e ++ concatMapStr f es

/-- The theme-exclusion suffix from `updateExtensionTable`:
`numThemeExtensions` is truthy exactly when it is a nonzero number
(`undefined` and `0` are falsy). -/
def themeExclusionStr (numThemeExtensions : Option Nat) : String :=
  match numThemeExtensions with
  | some n => if n = 0 then "" else
      "\n(" ++ toString n ++ " theme extensions excluded)"
  | none => ""

/-- The header rows of the extensions table in `updateExtensionTable`. -/
def extTableHeader : String :=
  "\n\t\t\t<tr>\n\t\t\t\t<th>Extension</th>\n\t\t\t\t<th>Author (truncated)</th>\n\t\t\t\t<th>Version</th>\n\t\t\t</tr>"

/-- One table row per extension in `updateExtensionTable`: the manifest
name, the publisher truncated to its first 3 characters
(`publisher.substr(0, 3)`), and the version. -/
def extensionRow (extension : ILocalExtension) : String :=
  "\n\t\t\t\t<tr>\n\t\t\t\t\t<td>" ++ extension.manifest.name
    ++ "</td>\n\t\t\t\t\t<td>" ++ extension.manifest.publisher.take 3
    ++ "</td>\n\t\t\t\t\t<td>" ++ extension.manifest.version
    ++ "</td>\n\t\t\t\t</tr>"

/-- `IssueReporter.updateExtensionTable` (lines 414-441): builds the
HTML written into the extensions block.  `extensions = extensions || []`
substitutes the empty list for an `undefined` group; an empty list
yields the single "Extensions: none" line plus the theme suffix;
otherwise a header plus one row per extension accumulated by `forEach`,
plus the theme suffix. -/
def updateExtensionTable (extensions : Option (List ILocalExtension))
    (numThemeExtensions : Option Nat) : String :=
  let themeSuffix := themeExclusionStr numThemeExtensions
  let extensions := extensions.getD []
  if extensions.isEmpty then
    "Extensions: none" ++ themeSuffix
  else
    let table := extensions.foldl (fun t e => t ++ extensionRow e) extTableHeader
    "<table>" ++ table ++ "</table>" ++ themeSuffix

/-- `IssueReporter.handleExtensionData` (lines 161-171): groups the
delivered extensions into themes / nonThemes, computes
`numberOfThemeExtesions = themes && themes.length` (`undefined` when the
themes group is absent), pushes both into the model via `update`, and
renders the extension table from the nonThemes group.  Returns the
updated model state and the rendered table HTML. -/
def handleExtensionData (s : ReportState) (extensions : List ILocalExtension) :
    ReportState × String :=
  let nonThemes := groupByKey extensions extensionGroupKey "nonThemes"
  let themes := groupByKey extensions extensionGroupKey "themes"
  let numberOfThemeExtesions := themes.map List.length
  let s := update s
    { numberOfThemeExtesions := some numberOfThemeExtesions,
      enabledNonThemeExtesions := some nonThemes }
  (s, updateExtensionTable nonThemes numberOfThemeExtesions)

/-- The two validated input fields, `issue-title` and `description`. -/
inductive InputField where
  | issueTitle
  | description
deriving DecidableEq, Repr

/-- The DOM state read and written by validation and submission: the two
input values, and per field whether the validation-error element is
visible and whether the input carries the `invalid-input` class. -/
structure Dom where
  issueTitleValue : String
  descriptionValue : String
  issueTitleErrorShown : Bool
  issueTitleInvalid : Bool
  descriptionErrorShown : Bool
  descriptionInvalid : Bool
deriving DecidableEq, Repr

/-- The current value of an input field. -/
def Dom.value (d : Dom) : InputField → String
  | InputField.issueTitle => d.issueTitleValue
  | InputField.description => d.descriptionValue

/-- Show or hide the `<id>-validation-error` element of a field. -/
def Dom.setErrorShown (d : Dom) (f : InputField) (b : Bool) : Dom :=
  match f with
  | InputField.issueTitle => { d with issueTitleErrorShown := b }
  | InputField.description => { d with descriptionErrorShown := b }

/-- Add or remove the `invalid-input` class on a field's input element. -/
def Dom.setInvalid (d : Dom) (f : InputField) (b : Bool) : Dom :=
  match f with
  | InputField.issueTitle => { d with issueTitleInvalid := b }
  | InputField.description => { d with descriptionInvalid := b }

/-- `IssueReporter.validateInput` (lines 307-318): when the field's
value is empty, shows its validation error, adds `invalid-input`, and
returns false; otherwise hides the error, removes the class, and
returns true. -/
def validateInput (d : Dom) (f : InputField) : Bool × Dom :=
  if d.value f = "" then
    (false, (d.setErrorShown f true).setInvalid f true)
  else
    (true, (d.setErrorShown f false).setInvalid f false)

/-- `IssueReporter.validateInputs` (lines 320-328): folds
`isValid = validateInput(id) && isValid` over `issue-title` then
`description`; `validateInput` is evaluated before the conjunction, so
both fields are always checked. -/
def validateInputs (d : Dom) : Bool × Dom :=
  let r1 := validateInput d InputField.issueTitle
  let r2 := validateInput r1.2 InputField.description
  (r2.1 && r1.1, r2.2)

/-- Side effects outside the DOM record: URLs opened via
`shell.openExternal`, the focused invalid field, and whether the dialog
window has been closed. -/
structure Effects where
  openedUrls : List String
  focusedInvalid : Option InputField
  windowClosed : Bool
deriving DecidableEq, Repr

/-- Modelled from the spec: `document.getElementsByClassName(
"invalid-input")[0]` picks the first invalid element in document order;
on the issue reporter page (issueReporterPage.ts, outside this slice)
the `issue-title` input precedes the `description` field, matching the
spec's "focus moved to first invalid field". -/
def firstInvalidInput (d : Dom) : Option InputField :=
  if d.issueTitleInvalid then some InputField.issueTitle
  else if d.descriptionInvalid then some InputField.description
  else none

/-- Modelled from the spec: the percent-encoding the caller applies to
the serialized body (JavaScript `encodeURIComponent`): unreserved
characters A-Z a-z 0-9 - _ . ! ~ * apostrophe ( ) pass through, every
other character's UTF-8 bytes are written as %XX. -/
def isUnreservedURIChar (c : Char) : Bool :=
  (('A' ≤ c) && (c ≤ 'Z')) || (('a' ≤ c) && (c ≤ 'z'))
    || (('0' ≤ c) && (c ≤ '9'))
    || c == '-' || c == '_' || c == '.' || c == '!' || c == '~'
    || c == '*' || c == Char.ofNat 39 || c == '(' || c == ')'

/-- The hexadecimal digit (uppercase) for a value below 16. -/
def hexDigitChar (n : Nat) : Char :=
  if n < 10 then Char.ofNat (48 + n) else Char.ofNat (55 + n)

/-- Percent-encode one character as the %XX form of its UTF-8 bytes. -/
def percentEncodeChar (c : Char) : String :=
  concatMapStr
    (fun b => "%" ++ String.singleton (hexDigitChar (b.toNat / 16))
      ++ String.singleton (hexDigitChar (b.toNat % 16)))
    (String.toUTF8 (String.singleton c)).toList

/-- Modelled from the spec: JavaScript `encodeURIComponent`. -/
def encodeURIComponent (s : String) : String :=
  concatMapStr
    (fun c => if isUnreservedURIChar c then String.singleton c
      else percentEncodeChar c)
    s.toList

/-- The category label used in the serialized header. -/
def issueTypeLabel : IssueType → String
  | IssueType.Bug => "Bug"
  | IssueType.PerformanceIssue => "Performance Issue"
  | IssueType.FeatureRequest => "Feature Request"

/-- The system-info section body: one `key: value` line per entry, in
stored insertion order. -/
def systemInfoBlock (info : List (String × String)) : String :=
  concatMapStr (fun kv => kv.1 ++ ": " ++ kv.2 ++ "\n") info

/-- The process section body: one line per process, columns
pid, cpuPercent, memoryMB, name, in receipt order. -/
def processInfoBlock (info : List ProcessItem) : String :=
  concatMapStr
    (fun p => toString p.pid ++ "\t" ++ p.cpu ++ "\t" ++ p.memory
      ++ "\t" ++ p.name ++ "\n")
    info

/-- Modelled from the spec: `IssueReporterModel.serialize`
(issueReporterModel.ts is outside this slice).  Fixed section order:
always the category line and the version header, always the description
verbatim, then the system, process, workspace and extensions sections,
each emitted only when its include flag is set and (for the first
three) its data has arrived; absence of optional data degrades output,
it does not error. -/
def serialize (s : ReportState) : String :=
  "Issue Type: " ++ issueTypeLabel s.issueType ++ "\n"
    ++ s.versionInfo.vscodeVersion ++ "\n" ++ s.versionInfo.os ++ "\n\n"
    ++ (s.issueDescription.getD "") ++ "\n"
    ++ (if s.includeSystemInfo then
          match s.systemInfo with
          | some info => "\nSystem Info:\n" ++ systemInfoBlock info
          | none => ""
        else "")
    ++ (if s.includeProcessInfo then
          match s.processInfo with
          | some info => "\nProcess Info:\n" ++ processInfoBlock info
          | none => ""
        else "")
    ++ (if s.includeWorkspaceInfo then
          match s.workspaceInfo with
          | some w => "\nWorkspace Info:\n" ++ "\n" ++ w
          | none => ""
        else "")
    ++ (if s.includeExtensions then
          "\nExtensions:\n"
            ++ (match s.enabledNonThemeExtesions.getD [] with
                | [] => "Extensions: none"
                    ++ themeExclusionStr s.numberOfThemeExtesions
                | l => concatMapStr
                    (fun e => e.manifest.name ++ ", "
                      ++ e.manifest.publisher.take 3 ++ ", "
                      ++ e.manifest.version ++ "\n") l
                    ++ themeExclusionStr s.numberOfThemeExtesions)
        else "")

/-- The fixed first part of the new-issue URL built by `createIssue`:
the title is interpolated after `?title=` and the encoded body is
appended after `&body=`. -/
def issueBaseUrl (issueTitle : String) : String :=
  "https://github.com/microsoft/vscode/issues/new?title=" ++ issueTitle ++ "&body="

/-- `IssueReporter.createIssue` (lines 330-361): when validation fails,
focuses the first `invalid-input` element and returns false without
opening any URL; otherwise reads the title from the DOM, serializes the
model, opens `issueBaseUrl(title) + encodeURIComponent(body)` in the
external browser, and returns true. -/
def createIssue (d : Dom) (model : ReportState) (eff : Effects) :
    Bool × Dom × Effects :=
  let r := validateInputs d
  if r.1 = false then
    (false, r.2, { eff with focusedInvalid := firstInvalidInput r.2 })
  else
    let issueTitle := r.2.issueTitleValue
    let issueBody := serialize model
    let url := issueBaseUrl issueTitle ++ encodeURIComponent issueBody
    (true, r.2, { eff with openedUrls := eff.openedUrls ++ [url] })

/-- A keyboard event: the fields read by the `onkeydown` handler. -/
structure KeyEvent where
  shiftKey : Bool
  keyCode : Nat
deriving DecidableEq, Repr

/-- The `document.onkeydown` handler from `setEventHandlers` (lines
257-264): on Shift+Enter (keyCode 13) it runs `createIssue` and closes
the window exactly when that returned true. -/
def onKeydown (e : KeyEvent) (d : Dom) (model : ReportState)
    (eff : Effects) : Dom × Effects :=
  if e.shiftKey && e.keyCode == 13 then
    let r := createIssue d model eff
    if r.1 then (r.2.1, { r.2.2 with windowClosed := true })
    else (r.2.1, r.2.2)
  else (d, eff)

/-- The `product` fields read by the constructor: the optional commit
hash and the optional build date. -/
structure ProductInfo where
  commit : Option String
  date : Option String
deriving DecidableEq, Repr

/-- JavaScript `x || fallback` on an optional string: the fallback is
used when the value is absent or the empty string (both falsy). -/
def jsOrString (v : Option String) (fallback : String) : String :=
  match v with
  | none => fallback
  | some s => if s = "" then fallback else s

/-- The initial model data built in the `IssueReporter` constructor
(lines 60-70): category Bug, all four include flags true, and the
version info assembled synchronously from `pkg`, `product` and `os`,
with `product.commit || 'Commit unknown'` and
`product.date || 'Date unknown'`.  Fields the constructor does not set
start absent (the model is created from exactly this data). -/
def initialReportState (pkgName pkgVersion : String) (product : ProductInfo)
    (osType osArch osRelease : String) : ReportState where
  issueType := IssueType.Bug
  includeSystemInfo := true
  includeProcessInfo := true
  includeWorkspaceInfo := true
  includeExtensions := true
  versionInfo :=
    { vscodeVersion := pkgName ++ " " ++ pkgVersion ++ " ("
        ++ jsOrString product.commit "Commit unknown" ++ ", "
        ++ jsOrString product.date "Date unknown" ++ ")",
      os := osType ++ " " ++ osArch ++ " " ++ osRelease }
  issueTitle := none
  issueDescription := none
  systemInfo := none
  processInfo := none
  workspaceInfo := none
  enabledNonThemeExtesions := none
  numberOfThemeExtesions := none

/-- The `issue-type` change handler from `setEventHandlers` (lines
202-205): a single-key partial update setting `issueType`. -/
def onCategoryChange (s : ReportState) (v : IssueType) : ReportState :=
  update s { issueType := some v }

/-- The four include flags, named as the checkbox element ids. -/
inductive IncludeFlag where
  | system
  | process
  | workspace
  | extensions
deriving DecidableEq, Repr

/-- Read the include flag named by `f` from the state. -/
def ReportState.getFlag (s : ReportState) : IncludeFlag → Bool
  | IncludeFlag.system => s.includeSystemInfo
  | IncludeFlag.process => s.includeProcessInfo
  | IncludeFlag.workspace => s.includeWorkspaceInfo
  | IncludeFlag.extensions => s.includeExtensions

/-- The include-flag click handler from `setEventHandlers` (lines
207-212): a single-key partial update setting the clicked flag to the
negation of its current value. -/
def onToggleInclude (s : ReportState) (f : IncludeFlag) : ReportState :=
  match f with
  | IncludeFlag.system =>
      update s { includeSystemInfo := some (!s.includeSystemInfo) }
  | IncludeFlag.process =>
      update s { includeProcessInfo := some (!s.includeProcessInfo) }
  | IncludeFlag.workspace =>
      update s { includeWorkspaceInfo := some (!s.includeWorkspaceInfo) }
  | IncludeFlag.extensions =>
      update s { includeExtensions := some (!s.includeExtensions) }

/-! Helper lemmas shared by the claim proofs. -/

/-- A singleton key check `length == 1 && keys[0] == "themes"` holds
exactly for the list `["themes"]`. -/
theorem keys_singleton_themes (ks : List String) :
    (ks.length == 1 && ks.getD 0 "" == "themes") = true ↔ ks = ["themes"] := by
  match ks with
  | [] => simp
  | [a] => simp [List.getD]
  | a :: b :: t => simp

/-- The group read back with default `[]` is the order-preserving filter
of the input by the key. -/
theorem groupByKey_getD (extensions : List ILocalExtension)
    (key : ILocalExtension → String) (k : String) :
    (groupByKey extensions key k).getD [] =
      extensions.filter (fun e => key e == k) := by
  unfold groupByKey
  cases h : extensions.filter (fun e => key e == k) <;> simp [h]

/-- `isThemeOnly` agrees with the raw `onlyTheme` boolean. -/
theorem isThemeOnly_eq (e : ILocalExtension) :
    isThemeOnly e = onlyThemeCheck e := by
  cases h : onlyThemeCheck e <;> simp [isThemeOnly, extensionGroupKey, h]

/-- An extension maps to the "nonThemes" group exactly when it is not
theme-only. -/
theorem extensionGroupKey_nonThemes (e : ILocalExtension) :
    (extensionGroupKey e == "nonThemes") = !(isThemeOnly e) := by
  cases h : onlyThemeCheck e <;> simp [isThemeOnly, extensionGroupKey, h]

/-- The theme-only test unfolded to its two manifest conditions. -/
theorem isThemeOnly_iff (e : ILocalExtension) :
    isThemeOnly e = true ↔
      (e.manifest.activationEvents = none
        ∧ (e.manifest.contributes).getD [] = ["themes"]) := by
  rw [isThemeOnly_eq]
  unfold onlyThemeCheck
  simp only [Bool.and_assoc, Bool.and_eq_true, Option.isNone_iff_eq_none]
  constructor
  · rintro ⟨h1, h2, h3⟩
    exact ⟨h1, (keys_singleton_themes _).mp (by rw [Bool.and_eq_true]; exact ⟨h2, h3⟩)⟩
  · rintro ⟨h1, h2⟩
    have hk := (keys_singleton_themes _).mpr h2
    rw [Bool.and_eq_true] at hk
    exact ⟨h1, hk.1, hk.2⟩

/-- Repeated `+=` over a list appends the per-element strings in order. -/
theorem foldl_append_concatMapStr {α : Type} (f : α → String)
    (l : List α) (acc : String) :
    l.foldl (fun t e => t ++ f e) acc = acc ++ concatMapStr f l := by
  induction l generalizing acc with
  | nil => simp [concatMapStr]
  | cons e es ih => simp [concatMapStr, ih, String.append_assoc]

/-- `createIssue` returns true exactly when both inputs are non-empty. -/
theorem createIssue_success_iff (d : Dom) (model : ReportState)
    (eff : Effects) :
    (createIssue d model eff).1 = true ↔
      (d.issueTitleValue ≠ "" ∧ d.descriptionValue ≠ "") := by
  by_cases ht : d.issueTitleValue = "" <;> by_cases hd : d.descriptionValue = "" <;>
    simp [createIssue, validateInputs, validateInput, Dom.value,
      Dom.setErrorShown, Dom.setInvalid, ht, hd]

/-! Concrete fixtures used by the witness theorems. -/

/-- A regular (non-theme) extension. -/
def extGitLens : ILocalExtension :=
  { manifest :=
    { name := "gitlens", publisher := "eamodio", version := "8.0.2",
      activationEvents := some ["*"], contributes := some ["commands"] } }

/-- A theme-only extension: no activation events, contributes only
the "themes" key. -/
def extTheme : ILocalExtension :=
  { manifest :=
    { name := "theme-monokai", publisher := "vscode", version := "1.0.0",
      activationEvents := none, contributes := some ["themes"] } }

/-- A DOM with an empty title and a non-empty description. -/
def dom0 : Dom :=
  { issueTitleValue := "", descriptionValue := "Steps to reproduce",
    issueTitleErrorShown := false, issueTitleInvalid := false,
    descriptionErrorShown := false, descriptionInvalid := false }

/-- A DOM with both fields filled in. -/
def dom1 : Dom :=
  { issueTitleValue := "Crash on save", descriptionValue := "Steps to reproduce",
    issueTitleErrorShown := false, issueTitleInvalid := false,
    descriptionErrorShown := false, descriptionInvalid := false }

/-- A concrete model state as built at dialog start. -/
def model0 : ReportState :=
  initialReportState "code-oss-dev" "1.19.0" { commit := none, date := none }
    "Linux" "x64" "4.15.0"

/-- The effects before any submission: nothing opened, nothing focused,
window open. -/
def eff0 : Effects :=
  { openedUrls := [], focusedInvalid := none, windowClosed := false }

/-! Claim theorems. -/

/-- C1: for every category, `renderBlocks` matches the spec's rule
table — Bug shows the system and extensions blocks and hides the
process and workspace blocks; PerformanceIssue shows all four;
FeatureRequest (the remaining case) hides all four. -/
theorem renderBlocks_policy_table (c : IssueType) :
    ((renderBlocks c).systemBlock = true ↔
      (c = IssueType.Bug ∨ c = IssueType.PerformanceIssue)) ∧
    ((renderBlocks c).processBlock = true ↔ c = IssueType.PerformanceIssue) ∧
    ((renderBlocks c).workspaceBlock = true ↔ c = IssueType.PerformanceIssue) ∧
    ((renderBlocks c).extensionsBlock = true ↔
      (c = IssueType.Bug ∨ c = IssueType.PerformanceIssue)) := by
  cases c <;> decide

/-- C2: an extension is theme-only iff its manifest has no activation
events and its contributes object has exactly one key, "themes";
theme-only extensions are tallied in the theme count (the count is
their number whenever any exist, `undefined` otherwise) and excluded
from the extension list stored in the model, which contains exactly
the non-theme extensions. -/
theorem themeOnly_grouping (s : ReportState) (exts : List ILocalExtension) :
    (∀ e : ILocalExtension, isThemeOnly e = true ↔
      (e.manifest.activationEvents = none
        ∧ (e.manifest.contributes).getD [] = ["themes"])) ∧
    (∀ e : ILocalExtension,
      e ∈ (((handleExtensionData s exts).1.enabledNonThemeExtesions).getD []) ↔
        (e ∈ exts ∧ isThemeOnly e = false)) ∧
    ((handleExtensionData s exts).1.numberOfThemeExtesions =
      if exts.filter (fun e => isThemeOnly e) = [] then none
      else some (exts.filter (fun e => isThemeOnly e)).length) := by
  refine ⟨fun e => isThemeOnly_iff e, fun e => ?_, ?_⟩
  · have hmodel : (handleExtensionData s exts).1.enabledNonThemeExtesions =
        groupByKey exts extensionGroupKey "nonThemes" := by
      simp [handleExtensionData, update]
    rw [hmodel, groupByKey_getD, List.mem_filter, extensionGroupKey_nonThemes]
    simp
  · have hmodel : (handleExtensionData s exts).1.numberOfThemeExtesions =
        (groupByKey exts extensionGroupKey "themes").map List.length := by
      simp [handleExtensionData, update]
    have hfil : exts.filter (fun e => extensionGroupKey e == "themes") =
        exts.filter (fun e => isThemeOnly e) := rfl
    rw [hmodel]
    unfold groupByKey
    rw [hfil]
    cases h : exts.filter (fun e => isThemeOnly e) <;> simp [h]

/-- C4: the rendered extensions block is the single line
"Extensions: none" when the list is empty, and otherwise a table with
one row per extension in receipt order showing name, the first 3
characters of the publisher, and version; both cases are followed by
the theme-count suffix, which is the parenthetical
"(N theme extensions excluded)" for a nonzero count and empty for a
zero or absent count. -/
theorem updateExtensionTable_rendering (exts : List ILocalExtension)
    (count : Option Nat) :
    (updateExtensionTable (some []) count =
      "Extensions: none" ++ themeExclusionStr count) ∧
    (exts ≠ [] → updateExtensionTable (some exts) count =
      "<table>" ++ extTableHeader ++ concatMapStr extensionRow exts
        ++ "</table>" ++ themeExclusionStr count) ∧
    themeExclusionStr none = "" ∧
    themeExclusionStr (some 0) = "" ∧
    (∀ n : Nat, n ≠ 0 → themeExclusionStr (some n) =
      "\n(" ++ toString n ++ " theme extensions excluded)") := by
  refine ⟨by simp [updateExtensionTable], fun h => ?_, rfl, rfl,
    fun n hn => by simp [themeExclusionStr, hn]⟩
  match exts, h with
  | e :: es, _ =>
    simp [updateExtensionTable, foldl_append_concatMapStr, concatMapStr,
      String.append_assoc]

/-- Witness for C4 at a one-element list and a count of 2. -/
theorem updateExtensionTable_rendering_witness :
    ([extGitLens] ≠ ([] : List ILocalExtension)) ∧
    updateExtensionTable (some [extGitLens]) (some 2) =
      "<table>" ++ extTableHeader ++ concatMapStr extensionRow [extGitLens]
        ++ "</table>" ++ themeExclusionStr (some 2) ∧
    themeExclusionStr (some 2) = "\n(" ++ toString 2 ++ " theme extensions excluded)" := by
  have h := updateExtensionTable_rendering [extGitLens] (some 2)
  exact ⟨by decide, h.2.1 (by decide), h.2.2.2.2 2 (by decide)⟩

/-- C9: when the non-theme group is absent (`undefined`), the renderer
substitutes the empty list and emits the "Extensions: none" line; the
theme suffix is present exactly for a nonzero numeric count and empty
for a zero or absent one. -/
theorem updateExtensionTable_missing_group (count : Option Nat) :
    (updateExtensionTable none count =
      "Extensions: none" ++ themeExclusionStr count) ∧
    (∀ n : Nat, themeExclusionStr (some n) =
      if n = 0 then "" else "\n(" ++ toString n ++ " theme extensions excluded)") ∧
    themeExclusionStr none = "" := by
  refine ⟨by simp [updateExtensionTable], fun n => ?_, rfl⟩
  by_cases hn : n = 0 <;> simp [themeExclusionStr, hn]

/-- C3: submission succeeds iff both title and description are
non-empty; each empty field gets its own error indicator and
`invalid-input` class (both fields are checked), and on failure no URL
is opened and focus moves to the first invalid field (the title when it
is empty, otherwise the description). -/
theorem createIssue_validation (d : Dom) (model : ReportState) (eff : Effects) :
    ((createIssue d model eff).1 = true ↔
      (d.issueTitleValue ≠ "" ∧ d.descriptionValue ≠ "")) ∧
    ((createIssue d model eff).2.1.issueTitleInvalid = true ↔
      d.issueTitleValue = "") ∧
    ((createIssue d model eff).2.1.issueTitleErrorShown = true ↔
      d.issueTitleValue = "") ∧
    ((createIssue d model eff).2.1.descriptionInvalid = true ↔
      d.descriptionValue = "") ∧
    ((createIssue d model eff).2.1.descriptionErrorShown = true ↔
      d.descriptionValue = "") ∧
    ((createIssue d model eff).1 = false →
      ((createIssue d model eff).2.2.openedUrls = eff.openedUrls ∧
        (createIssue d model eff).2.2.focusedInvalid =
          (if d.issueTitleValue = "" then some InputField.issueTitle
            else some InputField.description))) := by
  by_cases ht : d.issueTitleValue = "" <;> by_cases hd : d.descriptionValue = "" <;>
    simp [createIssue, validateInputs, validateInput, Dom.value,
      Dom.setErrorShown, Dom.setInvalid, firstInvalidInput, ht, hd]

/-- Witness for C3: with an empty title, submission fails, nothing is
opened, and the title field is focused. -/
theorem createIssue_validation_witness :
    (createIssue dom0 model0 eff0).1 = false ∧
    (createIssue dom0 model0 eff0).2.2.openedUrls = eff0.openedUrls ∧
    (createIssue dom0 model0 eff0).2.2.focusedInvalid =
      (if dom0.issueTitleValue = "" then some InputField.issueTitle
        else some InputField.description) := by
  have h := createIssue_validation dom0 model0 eff0
  have h1 : (createIssue dom0 model0 eff0).1 = false := by decide
  exact ⟨h1, (h.2.2.2.2.2 h1).1, (h.2.2.2.2.2 h1).2⟩

/-- C8: on successful submission the opened URL is the tracker's
new-issue page with the title as the `title` query parameter and the
percent-encoded serialized body appended as the `body` parameter. -/
theorem createIssue_opens_tracker_url (d : Dom) (model : ReportState)
    (eff : Effects) (ht : d.issueTitleValue ≠ "")
    (hd : d.descriptionValue ≠ "") :
    (createIssue d model eff).1 = true ∧
    (createIssue d model eff).2.2.openedUrls =
      eff.openedUrls ++
        ["https://github.com/microsoft/vscode/issues/new?title="
          ++ d.issueTitleValue ++ "&body="
          ++ encodeURIComponent (serialize model)] := by
  simp [createIssue, validateInputs, validateInput, Dom.value,
    Dom.setErrorShown, Dom.setInvalid, issueBaseUrl, ht, hd,
    String.append_assoc]

/-- Witness for C8 with both fields filled in. -/
theorem createIssue_opens_tracker_url_witness :
    (createIssue dom1 model0 eff0).1 = true ∧
    (createIssue dom1 model0 eff0).2.2.openedUrls =
      eff0.openedUrls ++
        ["https://github.com/microsoft/vscode/issues/new?title="
          ++ dom1.issueTitleValue ++ "&body="
          ++ encodeURIComponent (serialize model0)] :=
  createIssue_opens_tracker_url dom1 model0 eff0 (by decide) (by decide)

/-- C10: assuming the window is open, the Shift+Enter handler closes it
exactly when the event is Shift+Enter and `createIssue` succeeds, i.e.
when both title and description are non-empty; the window is never
closed while either field is empty. -/
theorem shiftEnter_closes_iff_valid (e : KeyEvent) (d : Dom)
    (model : ReportState) (eff : Effects) (h : eff.windowClosed = false) :
    (onKeydown e d model eff).2.windowClosed = true ↔
      (e.shiftKey = true ∧ e.keyCode = 13
        ∧ d.issueTitleValue ≠ "" ∧ d.descriptionValue ≠ "") := by
  by_cases hs : e.shiftKey = true <;> by_cases hk : e.keyCode = 13 <;>
    by_cases ht : d.issueTitleValue = "" <;> by_cases hd : d.descriptionValue = "" <;>
      simp [onKeydown, createIssue, validateInputs, validateInput, Dom.value,
        Dom.setErrorShown, Dom.setInvalid, hs, hk, ht, hd, h]

/-- Witness for C10: Shift+Enter with both fields filled closes the
window. -/
theorem shiftEnter_closes_iff_valid_witness :
    (onKeydown { shiftKey := true, keyCode := 13 } dom1 model0 eff0).2.windowClosed = true := by
  have h := shiftEnter_closes_iff_valid { shiftKey := true, keyCode := 13 }
    dom1 model0 eff0 (by decide)
  exact h.mpr ⟨rfl, rfl, by decide, by decide⟩

/-- C5: the state built at dialog start has category Bug, all four
include flags true, and version info assembled synchronously, with the
literal fallbacks "Commit unknown" and "Date unknown" substituted when
the commit or the build date is absent. -/
theorem initialReportState_defaults (pkgName pkgVersion : String)
    (product : ProductInfo) (osType osArch osRelease : String) :
    (initialReportState pkgName pkgVersion product osType osArch osRelease).issueType
        = IssueType.Bug ∧
    (initialReportState pkgName pkgVersion product osType osArch osRelease).includeSystemInfo
        = true ∧
    (initialReportState pkgName pkgVersion product osType osArch osRelease).includeProcessInfo
        = true ∧
    (initialReportState pkgName pkgVersion product osType osArch osRelease).includeWorkspaceInfo
        = true ∧
    (initialReportState pkgName pkgVersion product osType osArch osRelease).includeExtensions
        = true ∧
    (initialReportState pkgName pkgVersion product osType osArch osRelease).versionInfo.os
        = osType ++ " " ++ osArch ++ " " ++ osRelease ∧
    (product.commit = none →
      (initialReportState pkgName pkgVersion product osType osArch osRelease).versionInfo.vscodeVersion
        = pkgName ++ " " ++ pkgVersion ++ " (" ++ "Commit unknown" ++ ", "
          ++ jsOrString product.date "Date unknown" ++ ")") ∧
    (product.date = none →
      (initialReportState pkgName pkgVersion product osType osArch osRelease).versionInfo.vscodeVersion
        = pkgName ++ " " ++ pkgVersion ++ " ("
          ++ jsOrString product.commit "Commit unknown" ++ ", "
          ++ "Date unknown" ++ ")") := by
  refine ⟨rfl, rfl, rfl, rfl, rfl, rfl,
    fun hc => by simp [initialReportState, jsOrString, hc],
    fun hd => by simp [initialReportState, jsOrString, hd]⟩

/-- Witness for C5 with both commit and date absent. -/
theorem initialReportState_defaults_witness :
    model0.issueType = IssueType.Bug ∧
    model0.versionInfo.vscodeVersion
      = "code-oss-dev" ++ " " ++ "1.19.0" ++ " (" ++ "Commit unknown" ++ ", "
        ++ jsOrString none "Date unknown" ++ ")" := by
  have h := initialReportState_defaults "code-oss-dev" "1.19.0"
    { commit := none, date := none } "Linux" "x64" "4.15.0"
  exact ⟨h.1, h.2.2.2.2.2.2.1 rfl⟩

/-- C6: a category-change event updates only `issueType`; every other
field is unchanged, and changing the category back restores exactly the
prior state. -/
theorem onCategoryChange_frame (s : ReportState) (v : IssueType) :
    (onCategoryChange s v).issueType = v ∧
    (onCategoryChange s v).systemInfo = s.systemInfo ∧
    (onCategoryChange s v).processInfo = s.processInfo ∧
    (onCategoryChange s v).workspaceInfo = s.workspaceInfo ∧
    (onCategoryChange s v).enabledNonThemeExtesions = s.enabledNonThemeExtesions ∧
    (onCategoryChange s v).numberOfThemeExtesions = s.numberOfThemeExtesions ∧
    (onCategoryChange s v).includeSystemInfo = s.includeSystemInfo ∧
    (onCategoryChange s v).includeProcessInfo = s.includeProcessInfo ∧
    (onCategoryChange s v).includeWorkspaceInfo = s.includeWorkspaceInfo ∧
    (onCategoryChange s v).includeExtensions = s.includeExtensions ∧
    (onCategoryChange s v).issueTitle = s.issueTitle ∧
    (onCategoryChange s v).issueDescription = s.issueDescription ∧
    (onCategoryChange s v).versionInfo = s.versionInfo ∧
    onCategoryChange (onCategoryChange s v) s.issueType = s := by
  cases s
  simp [onCategoryChange, update]

/-- C7: an include-flag toggle negates exactly the clicked flag — every
other flag keeps its value — and leaves every non-flag field, in
particular the four diagnostic data fields, unchanged. -/
theorem onToggleInclude_frame (s : ReportState) (f g : IncludeFlag) :
    ((onToggleInclude s f).getFlag g =
      if g = f then !(s.getFlag g) else s.getFlag g) ∧
    (onToggleInclude s f).issueType = s.issueType ∧
    (onToggleInclude s f).systemInfo = s.systemInfo ∧
    (onToggleInclude s f).processInfo = s.processInfo ∧
    (onToggleInclude s f).workspaceInfo = s.workspaceInfo ∧
    (onToggleInclude s f).enabledNonThemeExtesions = s.enabledNonThemeExtesions ∧
    (onToggleInclude s f).numberOfThemeExtesions = s.numberOfThemeExtesions ∧
    (onToggleInclude s f).issueTitle = s.issueTitle ∧
    (onToggleInclude s f).issueDescription = s.issueDescription ∧
    (onToggleInclude s f).versionInfo = s.versionInfo := by
  cases f <;> cases g <;>
    simp [onToggleInclude, update, ReportState.getFlag]

end IssueReporterSpec
